import Mathlib

/-!
Verification of the crypto-sentiment aggregation pipeline.

This file gives a shallow embedding of the core of the repository
(app.py together with the aggregation part of typefully_bot.py) and
proves the behavioural properties stated in the specification.

Modelling conventions:
- Sentiment scores are rationals; the external VADER scorer is a
  black box and appears as an explicit function argument
  (analyzer : String → ℚ), following the spec, which treats the
  scoring function as an external pure black box.
- Wall-clock helpers are explicit arguments: now stands for
  datetime.utcnow().isoformat(), fmtTs for
  datetime.utcfromtimestamp(..).isoformat().
- The network is an explicit oracle argument per adapter, given at the
  level of decoded payloads (status code plus parsed JSON fields); an
  exception raised anywhere inside a try block is modelled by the exc
  constructor of the oracle outcome.
- Each adapter returns its (items, status) pair together with the
  number of network round trips it performed, so that the
  zero-network-call clauses of the spec are statable.
- Status strings are copied byte for byte from the source file, which
  stores its emoji markers in a double-encoded (mojibake) form.
-/

/-- Python truthiness of an optional string: None and the empty string
are falsy, every other string is truthy. -/
def pyTruthy : Option String → Bool
  | some s => s != ""
  | none => false

/-- Does the character list s start with pat? -/
def charsStartWith : List Char → List Char → Bool
  | [], _ => true
  | _ :: _, [] => false
  | c :: cs, d :: ds => c = d && charsStartWith cs ds

/-- Does pat occur as a contiguous run inside s? -/
def charsContain (pat : List Char) : List Char → Bool
  | [] => charsStartWith pat []
  | d :: ds => charsStartWith pat (d :: ds) || charsContain pat ds

/-- Python substring containment, the pat in s test: true iff pat
occurs in s (the empty pattern occurs in every string). -/
def strContains (s pat : String) : Bool :=
  charsContain pat.data s.data

/-- Python str.lower, modelled characterwise (ASCII case mapping,
exactly what the adapters rely on for ticker symbols and headlines). -/
def pyLower (s : String) : String :=
  String.mk (s.data.map Char.toLower)

/-- Python str.upper, modelled characterwise. -/
def pyUpper (s : String) : String :=
  String.mk (s.data.map Char.toUpper)

/-- Python str.strip with no arguments: drop whitespace from both
ends, modelled characterwise. -/
def pyStrip (s : String) : String :=
  String.mk
    (((s.data.dropWhile Char.isWhitespace).reverse.dropWhile
        Char.isWhitespace).reverse)

/-- Tag-removal loop over characters; drops every span between a
matching pair of angle brackets, modelling re.sub applied with the
tag-matching pattern used by the scraping adapters on well-formed
markup. -/
def stripTagsAux : List Char → Bool → List Char
  | [], _ => []
  | c :: cs, inTag =>
    if inTag then
      if c = '>' then stripTagsAux cs false else stripTagsAux cs true
    else
      if c = '<' then stripTagsAux cs true else c :: stripTagsAux cs false

/-- Removes markup tags from a string (see stripTagsAux). -/
def stripTags (s : String) : String :=
  String.mk (stripTagsAux s.data false)

/-- One unit of sentiment evidence, the common record schema every
adapter normalizes into (the dict literals appended to the items lists
in app.py). -/
structure Item where
  source : String
  title : String
  text : String
  url : String
  dt : String
  compound : ℚ
  label : String
deriving DecidableEq, Repr

/-- vader_label from app.py: positive above 0.05, negative below
-0.05, neutral otherwise. -/
def vader_label (score : ℚ) : String :=
  if score > 0.05 then "positive"
  else if score < -0.05 then "negative"
  else "neutral"

/-- The record returned by get_sentiment_grade in app.py. -/
structure GradeInfo where
  grade : String
  emoji : String
  description : String
  color : String
  advice : String
deriving DecidableEq, Repr

/-- get_sentiment_grade from app.py: converts a sentiment score to a
letter grade record via a fixed threshold chain. -/
def get_sentiment_grade (score : ℚ) : GradeInfo :=
  if score ≥ 0.5 then
    { grade := "A+", emoji := "üöÄ", description := "Extremely Bullish",
      color := "#10b981",
      advice := "Strong positive sentiment! Community is very optimistic." }
  else if score ≥ 0.3 then
    { grade := "A", emoji := "üìà", description := "Very Bullish",
      color := "#34d399",
      advice := "High positive sentiment. Good vibes in the community." }
  else if score ≥ 0.1 then
    { grade := "B", emoji := "üòä", description := "Bullish",
      color := "#6ee7b7",
      advice := "Moderately positive sentiment. Cautiously optimistic." }
  else if score ≥ -0.1 then
    { grade := "C", emoji := "üòê", description := "Neutral",
      color := "#fbbf24",
      advice := "Mixed sentiment. Community is divided or uncertain." }
  else if score ≥ -0.3 then
    { grade := "D", emoji := "üìâ", description := "Bearish",
      color := "#fb923c",
      advice := "Moderately negative sentiment. Proceed with caution." }
  else
    { grade := "F", emoji := "üíÄ", description := "Extremely Bearish",
      color := "#ef4444",
      advice := "Strong negative sentiment! High fear in the community." }

/-- get_api_key from app.py. The Streamlit secret store is modelled as
an optional lookup table: none stands for a store that is absent or
whose access raises (the try/except treats both as not found), some
store gives the per-name lookup. The environment is a lookup table as
well; os.getenv returning an empty string is falsy and falls through. -/
def get_api_key (key_name : String) (user_key : Option String)
    (secrets : Option (String → Option String))
    (env : String → Option String) : Option String :=
  if pyTruthy user_key then user_key
  else
    let fromEnv : Option String :=
      if pyTruthy (env key_name) then env key_name else none
    match secrets with
    | some store =>
      match store key_name with
      | some v => some v
      | none => fromEnv
    | none => fromEnv

/-- Response of one HTTP request, at the granularity safe_request
inspects it (only the status code matters to its control flow). -/
structure HttpResponse where
  status_code : Nat
deriving DecidableEq, Repr

/-- Outcome of issuing one HTTP request: either an exception was
raised in transport or a response came back. -/
inductive RequestOutcome where
  | exc : RequestOutcome
  | resp : HttpResponse → RequestOutcome
deriving DecidableEq, Repr

/-- The direct (non-proxy) attempt of safe_request: the response if it
arrived with status 200, otherwise nothing (exceptions are swallowed,
non-200 responses are discarded). -/
def directResult : RequestOutcome → Option HttpResponse
  | .resp r => if r.status_code = 200 then some r else none
  | .exc => none

/-- The proxy retry loop of safe_request: try each sampled proxy in
order, returning the first response with status 200; exceptions and
non-200 responses move on to the next proxy. -/
def proxyLoop (viaProxy : String → RequestOutcome) : List String → Option HttpResponse
  | [] => none
  | p :: ps =>
    match viaProxy p with
    | .resp r => if r.status_code = 200 then some r else proxyLoop viaProxy ps
    | .exc => proxyLoop viaProxy ps

/-- safe_request from app.py. The direct attempt and each per-proxy
attempt are oracle arguments; sample stands for the list produced by
random.sample(proxies_list, min(3, len(proxies_list))), drawn only
when the supplied pool is truthy (neither None nor empty). -/
def safe_request (direct : RequestOutcome) (viaProxy : String → RequestOutcome)
    (proxies_list : Option (List String)) (sample : List String) : Option HttpResponse :=
  match directResult direct with
  | some r => some r
  | none =>
    match proxies_list with
    | some ps => if ps.isEmpty then none else proxyLoop viaProxy sample
    | none => none

/-- Size of the optional proxy pool (0 when absent). -/
def proxyPoolSize : Option (List String) → Nat
  | some ps => ps.length
  | none => 0

/-- One parsed entry of a Nitter RSS feed: the description match of
the tweet, if the pattern matched, and the link match. -/
structure NitterTweet where
  description : Option String
  link : Option String
deriving DecidableEq, Repr

/-- The fixed ordered list of Nitter mirror hosts from app.py. -/
def nitter_instances : List String :=
  ["nitter.poast.org", "nitter.privacydev.net", "nitter.woodland.cafe",
   "nitter.lucabased.xyz", "nitter.mint.lgbt", "xcancel.com"]

/-- The inner tweet loop of fetch_ct_nitter: walk the first limit raw
tweets, append an item for each matched description (tag-stripped and
trimmed, truncated title), and stop once the accumulated item list has
reached limit. -/
def nitterCollect (analyzer : String → ℚ) (now : String) (limit : Nat) :
    List NitterTweet → List Item → List Item
  | [], items => items
  | t :: ts, items =>
    match t.description with
    | some raw =>
      let text := pyStrip (stripTags raw)
      let score := analyzer text
      let it : Item :=
        { source := "ct_nitter", title := text.take 80, text := text,
          url := t.link.getD "", dt := now,
          compound := score, label := vader_label score }
      let items := items ++ [it]
      if limit ≤ items.length then items else nitterCollect analyzer now limit ts items
    | none =>
      if limit ≤ items.length then items else nitterCollect analyzer now limit ts items

/-- The instance loop of fetch_ct_nitter: responses holds, for each
mirror in order, the outcome of safe_request plus RSS extraction (none
when the request failed); the first instance yielding any items wins.
Each consulted instance counts as one network round trip. -/
def nitterGo (analyzer : String → ℚ) (now : String) (limit : Nat) :
    List (Option (List NitterTweet)) → Nat → (List Item × String) × Nat
  | [], calls => (([], "‚ùå All instances down"), calls)
  | resp :: rest, calls =>
    match resp with
    | none => nitterGo analyzer now limit rest (calls + 1)
    | some tweets =>
      let items := nitterCollect analyzer now limit (tweets.take limit) []
      if items.isEmpty then nitterGo analyzer now limit rest (calls + 1)
      else ((items, "‚úÖ " ++ toString items.length ++ " tweets"), calls + 1)

/-- fetch_ct_nitter from app.py. The query only shapes the request
parameters, which are absorbed into the response oracle. -/
def fetch_ct_nitter (analyzer : String → ℚ) (now : String)
    (query : String) (limit : Nat)
    (responses : List (Option (List NitterTweet))) : (List Item × String) × Nat :=
  if limit = 0 then (([], "Disabled"), 0)
  else nitterGo analyzer now limit responses 0

/-- Outcome of a try block around one request plus JSON decoding:
either an exception with its message, or a decoded payload. -/
inductive HttpOutcome (α : Type) where
  | exc : String → HttpOutcome α
  | ok : α → HttpOutcome α
deriving DecidableEq, Repr

/-- One tweet of the RapidAPI search payload. -/
structure RapidTweet where
  text : String
  tweet_id : String
  creation_date : Option String
deriving DecidableEq, Repr

/-- Decoded RapidAPI search response: status code and results list. -/
structure RapidResp where
  status : Nat
  results : List RapidTweet
deriving DecidableEq, Repr

/-- fetch_ct_rapidapi from app.py. -/
def fetch_ct_rapidapi (analyzer : String → ℚ) (now : String)
    (query : String) (limit : Nat) (api_key : Option String)
    (secrets : Option (String → Option String)) (env : String → Option String)
    (world : HttpOutcome RapidResp) : (List Item × String) × Nat :=
  if limit = 0 then (([], "Disabled"), 0)
  else
    let key := get_api_key "RAPIDAPI_KEY" api_key secrets env
    if ¬ pyTruthy key then (([], "‚ö†Ô∏è No API key"), 0)
    else
      match world with
      | .exc msg => (([], "‚ùå Error: " ++ msg.take 50), 1)
      | .ok r =>
        if r.status = 429 then (([], "‚ö†Ô∏è Rate limit reached"), 1)
        else if r.status ≠ 200 then (([], "‚ùå API error: " ++ toString r.status), 1)
        else
          let items := (r.results.take limit).map (fun tweet =>
            let text := tweet.text
            let score := analyzer text
            { source := "ct_rapidapi", title := text.take 80, text := text,
              url := "https://twitter.com/i/status/" ++ tweet.tweet_id,
              dt := tweet.creation_date.getD now,
              compound := score, label := vader_label score })
          ((items, "‚úÖ " ++ toString items.length ++ " tweets"), 1)

/-- One Reddit post as the adapter reads it (dict gets with defaults). -/
structure RedditPost where
  title : String
  selftext : String
  permalink : String
  created_utc : Int
deriving DecidableEq, Repr

/-- Network view of one subreddit: the search request (outer none when
safe_request yielded nothing, inner none when the JSON decode raised)
and the hot-listing fallback request. -/
structure SubWorld where
  search : Option (Option (List RedditPost))
  hot : Option (Option (List RedditPost))
deriving Repr

/-- The post loop of fetch_reddit_json: skip posts whose combined text
does not contain the query (case-insensitively), append an item for
the rest, and stop once the accumulated list has reached limit. -/
def redditCollect (analyzer : String → ℚ) (fmtTs : Int → String)
    (query : String) (limit : Nat) :
    List RedditPost → List Item → List Item
  | [], items => items
  | p :: ps, items =>
    let text := p.title ++ " " ++ p.selftext
    if ¬ strContains (pyLower text) (pyLower query) then
      redditCollect analyzer fmtTs query limit ps items
    else
      let score := analyzer text
      let it : Item :=
        { source := "reddit", title := p.title, text := text,
          url := "https://reddit.com" ++ p.permalink,
          dt := fmtTs p.created_utc,
          compound := score, label := vader_label score }
      let items := items ++ [it]
      if limit ≤ items.length then items
      else redditCollect analyzer fmtTs query limit ps items

/-- The subreddit loop of fetch_reddit_json, threading the item list,
the failed-subreddit count and the network-call count. A failed
search request or undecodable search payload marks the subreddit as
errored; an empty search result triggers the hot-listing fallback,
whose failures are silently ignored. -/
def redditGo (analyzer : String → ℚ) (fmtTs : Int → String)
    (query : String) (limit : Nat) (worlds : String → SubWorld) :
    List String → List Item → Nat → Nat → List Item × Nat × Nat
  | [], items, errs, calls => (items, errs, calls)
  | sub :: rest, items, errs, calls =>
    match (worlds sub).search with
    | none => redditGo analyzer fmtTs query limit worlds rest items (errs + 1) (calls + 1)
    | some none => redditGo analyzer fmtTs query limit worlds rest items (errs + 1) (calls + 1)
    | some (some posts) =>
      let fb : List RedditPost × Nat :=
        if posts.isEmpty then
          match (worlds sub).hot with
          | some (some posts2) => (posts2, calls + 2)
          | some none => (posts, calls + 2)
          | none => (posts, calls + 2)
        else (posts, calls + 1)
      let items := redditCollect analyzer fmtTs query limit fb.1 items
      redditGo analyzer fmtTs query limit worlds rest items errs fb.2

/-- fetch_reddit_json from app.py. The per-subreddit request limit
max(10, limit // len(subs)) only shapes the request parameters, which
are absorbed into the oracle. -/
def fetch_reddit_json (analyzer : String → ℚ) (fmtTs : Int → String)
    (subs : List String) (query : String) (limit : Nat)
    (worlds : String → SubWorld) : (List Item × String) × Nat :=
  if limit = 0 then (([], "Disabled"), 0)
  else
    let r := redditGo analyzer fmtTs query limit worlds subs [] 0 0
    let status :=
      if r.1.length = 0 then "‚ö†Ô∏è No posts found (try broader terms)"
      else
        "‚úÖ " ++ toString r.1.length ++ " posts" ++
          (if r.2.1 ≠ 0 then " (‚ö†Ô∏è " ++ toString r.2.1 ++ " subs failed)" else "")
    ((r.1, status), r.2.2)

/-- One NewsAPI article as the adapter reads it; description models
the defaulted get of the description field. -/
structure NewsArticle where
  title : String
  description : String
  url : String
  publishedAt : String
deriving DecidableEq, Repr

/-- Decoded NewsAPI response: status code and articles list. -/
structure NewsResp where
  status : Nat
  articles : List NewsArticle
deriving DecidableEq, Repr

/-- fetch_news from app.py. The lookback window only shapes the
request URL, which is absorbed into the oracle. -/
def fetch_news (analyzer : String → ℚ) (query : String) (days : Nat)
    (limit : Nat) (api_key : Option String)
    (secrets : Option (String → Option String)) (env : String → Option String)
    (world : HttpOutcome NewsResp) : (List Item × String) × Nat :=
  if limit = 0 then (([], "Disabled"), 0)
  else
    let key := get_api_key "NEWSAPI_KEY" api_key secrets env
    if ¬ pyTruthy key then (([], "‚ö†Ô∏è No API key"), 0)
    else
      match world with
      | .exc msg => (([], "‚ùå Error: " ++ msg.take 50), 1)
      | .ok r =>
        if r.status = 429 then (([], "‚ö†Ô∏è Rate limit reached"), 1)
        else if r.status ≠ 200 then (([], "‚ùå API error: " ++ toString r.status), 1)
        else
          let items := r.articles.map (fun a =>
            let text := a.title ++ " " ++ a.description
            let score := analyzer text
            { source := "news", title := a.title, text := text, url := a.url,
              dt := a.publishedAt, compound := score, label := vader_label score })
          ((items, "‚úÖ " ++ toString items.length ++ " articles"), 1)

/-- One trending coin of the CoinGecko payload; market_cap_rank is the
rendered rank text (the literal used for a missing rank). -/
structure TrendingCoin where
  name : String
  symbol : String
  market_cap_rank : String
  id : String
deriving DecidableEq, Repr

/-- Decoded CoinGecko trending response. -/
structure TrendingResp where
  status : Nat
  coins : List TrendingCoin
deriving DecidableEq, Repr

/-- fetch_coingecko_trending from app.py: no limit gate, fixed
heuristic score 0.3 per trending coin, first 7 coins. -/
def fetch_coingecko_trending (now : String)
    (world : HttpOutcome TrendingResp) : (List Item × String) × Nat :=
  match world with
  | .exc msg => (([], "‚ùå Error: " ++ msg.take 50), 1)
  | .ok r =>
    if r.status ≠ 200 then (([], "‚ùå API error"), 1)
    else
      let items := (r.coins.take 7).map (fun coin =>
        let text := "Trending: " ++ coin.name ++ " (" ++ coin.symbol ++
          ") - Rank #" ++ coin.market_cap_rank
        let score : ℚ := 0.3
        { source := "coingecko_trending", title := text, text := text,
          url := "https://www.coingecko.com/en/coins/" ++ coin.id,
          dt := now, compound := score, label := vader_label score })
      ((items, "‚úÖ " ++ toString items.length ++ " trending"), 1)

/-- One CryptoCompare news article as the adapter reads it. -/
structure CCArticle where
  title : String
  body : String
  url : String
  published_on : Int
deriving DecidableEq, Repr

/-- Decoded CryptoCompare news response. -/
structure CCResp where
  status : Nat
  articles : List CCArticle
deriving DecidableEq, Repr

/-- fetch_cryptocompare_news from app.py: client-side substring
filtering on title or body, falling back to the first limit articles
when nothing matches. -/
def fetch_cryptocompare_news (analyzer : String → ℚ) (fmtTs : Int → String)
    (query : String) (limit : Nat)
    (world : HttpOutcome CCResp) : (List Item × String) × Nat :=
  if limit = 0 then (([], "Disabled"), 0)
  else
    match world with
    | .exc msg => (([], "‚ùå Error: " ++ msg.take 50), 1)
    | .ok r =>
      if r.status ≠ 200 then (([], "‚ùå API error: " ++ toString r.status), 1)
      else
        let filtered := r.articles.filter (fun a =>
          strContains (pyLower a.title) (pyLower query) ||
          strContains (pyLower a.body) (pyLower query))
        let filtered := if filtered.isEmpty then r.articles.take limit else filtered
        let items := (filtered.take limit).map (fun article =>
          let text := article.title ++ " " ++ article.body.take 200
          let score := analyzer text
          { source := "cryptocompare", title := article.title, text := text,
            url := article.url, dt := fmtTs article.published_on,
            compound := score, label := vader_label score })
        ((items, "‚úÖ " ++ toString items.length ++ " articles"), 1)

/-- One CryptoPanic post as the adapter reads it. -/
structure CPPost where
  title : String
  url : String
  published_at : String
deriving DecidableEq, Repr

/-- Decoded CryptoPanic response. -/
structure CPResp where
  status : Nat
  results : List CPPost
deriving DecidableEq, Repr

/-- The currency symbols fetch_cryptopanic passes as a structured
filter parameter when the query matches one of them exactly. -/
def known_currencies : List String :=
  ["BTC", "ETH", "AVAX", "SOL", "ADA", "DOT", "MATIC", "LINK"]

/-- The tail of fetch_cryptopanic shared by both request paths: when
the request did not carry a currencies parameter the results are
filtered client-side by title substring, then scored and truncated. -/
def cryptopanicFinish (analyzer : String → ℚ) (query : String) (limit : Nat)
    (results : List CPPost) (hasCurrencies : Bool) (calls : Nat) :
    (List Item × String) × Nat :=
  let results :=
    if ¬ hasCurrencies then
      results.filter (fun a => strContains (pyLower a.title) (pyLower query))
    else results
  let items := (results.take limit).map (fun article =>
    let text := article.title
    let score := analyzer text
    { source := "cryptopanic", title := article.title, text := text,
      url := article.url, dt := article.published_at,
      compound := score, label := vader_label score })
  if items.isEmpty then (([], "‚ö†Ô∏è No results"), calls)
  else ((items, "‚úÖ " ++ toString items.length ++ " articles"), calls)

/-- fetch_cryptopanic from app.py: a first request with a currency
filter when the query is a known symbol, a second request without the
filter when the first does not come back with status 200. -/
def fetch_cryptopanic (analyzer : String → ℚ) (query : String) (limit : Nat)
    (world1 world2 : HttpOutcome CPResp) : (List Item × String) × Nat :=
  if limit = 0 then (([], "Disabled"), 0)
  else
    let hasCurrencies := known_currencies.contains (pyUpper query)
    match world1 with
    | .exc msg => (([], "‚ùå Error: " ++ msg.take 50), 1)
    | .ok r =>
      if r.status ≠ 200 then
        match world2 with
        | .exc msg => (([], "‚ùå Error: " ++ msg.take 50), 2)
        | .ok r2 =>
          if r2.status ≠ 200 then (([], "‚ùå API unavailable"), 2)
          else cryptopanicFinish analyzer query limit r2.results false 2
      else cryptopanicFinish analyzer query limit r.results hasCurrencies 1

/-- Decoded CoinMarketCap headlines page: status code and the list of
headline fragments extracted by the h3 pattern from the page body. -/
structure CMCResp where
  status : Nat
  headlines : List String
deriving DecidableEq, Repr

/-- fetch_coinmarketcap_news from app.py: scrape the first limit
headline fragments, strip markup, drop empty or short fragments and
the ones not mentioning the query. -/
def fetch_coinmarketcap_news (analyzer : String → ℚ) (now : String)
    (query : String) (limit : Nat)
    (world : HttpOutcome CMCResp) : (List Item × String) × Nat :=
  if limit = 0 then (([], "Disabled"), 0)
  else
    match world with
    | .exc msg => (([], "‚ùå Error: " ++ msg.take 50), 1)
    | .ok r =>
      if r.status ≠ 200 then (([], "‚ùå Scraping blocked"), 1)
      else
        let items := (r.headlines.take limit).filterMap (fun headline =>
          let clean := pyStrip (stripTags headline)
          if clean = "" ∨ clean.length < 10 then none
          else if ¬ strContains (pyLower clean) (pyLower query) then none
          else
            let score := analyzer clean
            let it : Item :=
              { source := "coinmarketcap", title := clean, text := clean,
                url := "https://coinmarketcap.com/headlines/news/", dt := now,
                compound := score, label := vader_label score }
            some it)
        if items.isEmpty then (([], "‚ö†Ô∏è No matching news"), 1)
        else ((items, "‚úÖ " ++ toString items.length ++ " headlines"), 1)

/-- The price record built by get_coingecko in app.py. -/
structure PriceData where
  name : String
  symbol : String
  coingecko_id : String
  price_usd : ℚ
  market_cap_usd : ℚ
  volume_24h_usd : ℚ
  price_change_24h : ℚ
deriving DecidableEq, Repr

/-- The record built by fetch_fear_greed in app.py. -/
structure FearGreed where
  value : Int
  classification : String
  timestamp : String
deriving DecidableEq, Repr

/-- Value stored in the orchestrator result map for one task: the
adapter tuples, the price-lookup tuple, or the bare fear/greed record
(the one task whose function does not return a tuple). -/
inductive TaskValue where
  | items : List Item → String → TaskValue
  | price : Option PriceData → String → TaskValue
  | fng : Option FearGreed → TaskValue
deriving DecidableEq, Repr

/-- How one submitted task ends at the orchestrator: its future either
delivers a value within the 30 second bound, or raises or times out. -/
inductive TaskOutcome where
  | completed : TaskValue → TaskOutcome
  | failed : TaskOutcome
deriving DecidableEq, Repr

/-- The immutable per-run configuration dict consumed by
fetch_all_parallel, with the keys it reads. -/
structure Config where
  query : String
  lookback : Nat
  ct_method : String
  ct_limit : Nat
  reddit_limit : Nat
  news_limit : Nat
  cryptopanic_limit : Nat
  cryptocompare_limit : Nat
  cmc_limit : Nat
  trending_enabled : Bool
  subs : List String
  newsapi_key : Option String
  rapidapi_key : Option String
  proxies : Option (List String)
deriving Repr

/-- The keys of the futures dict built by fetch_all_parallel, in
submission order: one task per enabled adapter, the price lookup and
the fear/greed index unconditionally. The RapidAPI gate also consults
get_api_key, hence the secret-store and environment arguments. -/
def submitted_tasks (c : Config) (secrets : Option (String → Option String))
    (env : String → Option String) : List String :=
  (if 0 < c.ct_limit ∧ (c.ct_method = "Nitter (Free)" ∨ c.ct_method = "All")
    then ["ct_nitter"] else []) ++
  (if 0 < c.ct_limit ∧ (c.ct_method = "RapidAPI" ∨ c.ct_method = "All") ∧
      (pyTruthy c.rapidapi_key ∨ pyTruthy (get_api_key "RAPIDAPI_KEY" none secrets env))
    then ["ct_rapidapi"] else []) ++
  (if 0 < c.reddit_limit then ["reddit"] else []) ++
  (if 0 < c.news_limit then ["news"] else []) ++
  (if 0 < c.cryptopanic_limit then ["cryptopanic"] else []) ++
  (if 0 < c.cryptocompare_limit then ["cryptocompare"] else []) ++
  (if 0 < c.cmc_limit then ["cmc"] else []) ++
  (if c.trending_enabled then ["trending"] else []) ++
  ["coingecko", "fear_greed"]

/-- fetch_all_parallel from app.py, at the fan-in level: the worker
pool and the per-task 30 second bound are abstracted into an outcome
oracle per task name; a future that raises or exceeds the bound is
recorded as empty items plus the timeout/error status. The result is
the key-ordered association list of the results dict. -/
def fetch_all_parallel (c : Config) (secrets : Option (String → Option String))
    (env : String → Option String) (outcome : String → TaskOutcome) :
    List (String × TaskValue) :=
  (submitted_tasks c secrets env).map (fun name =>
    (name,
      match outcome name with
      | .completed v => v
      | .failed => .items [] "‚ùå Timeout/Error"))

/-- The fixed ordered list of sentiment-bearing source names the
aggregation step concatenates (identical in app.py and
typefully_bot.py). -/
def sentiment_sources : List String :=
  ["ct_nitter", "ct_rapidapi", "reddit", "news", "cryptopanic",
   "cryptocompare", "cmc", "trending"]

/-- Items contributed by one named source of the result map: the first
component of its tuple when the entry exists and is an adapter tuple,
nothing otherwise (the fear/greed record is not a tuple of items and
the price tuple carries no item list; neither name is ever consulted
by the aggregation loop). -/
def extract_items (results : List (String × TaskValue)) (name : String) : List Item :=
  match (results.find? (fun p => p.1 = name)).map Prod.snd with
  | some (.items l _) => l
  | _ => []

/-- The concatenation loop building all_data in app.py (and
identically in typefully_bot.py): items of each sentiment-bearing
source present in the result map, in the fixed source order. -/
def all_data (results : List (String × TaskValue)) : List Item :=
  sentiment_sources.foldl (fun acc name => acc ++ extract_items results name) []

/-- Arithmetic mean of a list of rationals (pandas mean of the
compound column, over exact arithmetic). -/
def listMean (l : List ℚ) : ℚ := l.sum / (l.length : ℚ)

/-- Rounding to four decimal places, modelling the round(4) applied to
the per-source mean column. -/
def round4 (q : ℚ) : ℚ := (round (q * 10000) : ℚ) / 10000

/-- The derived summary the dashboard computes from the merged item
list: overall mean compound, per-label counts, and per-source mean and
count (the groupby table, as a keyed lookup; absent sources have no
row). -/
structure AggregatedDataset where
  overall_sentiment : ℚ
  total : Nat
  positives : Nat
  negatives : Nat
  neutrals : Nat
  by_source : String → Option (ℚ × Nat)

/-- The summary statistics computed by the aggregation section of
app.py from the concatenated item list. -/
def computeAgg (data : List Item) : AggregatedDataset :=
  { overall_sentiment := listMean (data.map Item.compound)
    total := data.length
    positives := data.countP (fun i => i.label == "positive")
    negatives := data.countP (fun i => i.label == "negative")
    neutrals := data.countP (fun i => i.label == "neutral")
    by_source := fun src =>
      let xs := data.filter (fun i => i.source == src)
      if xs.isEmpty then none
      else some (round4 (listMean (xs.map Item.compound)), xs.length) }

/-- The aggregation step of the app module: build all_data from the
result map; an empty dataframe surfaces the user-facing no-data error
and stops rendering (modelled by none), otherwise the summary is
computed from the concatenated items. -/
def aggregate_display (results : List (String × TaskValue)) : Option AggregatedDataset :=
  let data := all_data results
  if data.isEmpty then none else some (computeAgg data)

/-- The aggregation core of analyze_coin_with_cryptovibes in
typefully_bot.py: same concatenation, an empty list returns the error
record (modelled by none), otherwise the overall mean, its grade and
the item count. -/
def analyze_coin_with_cryptovibes (results : List (String × TaskValue)) :
    Option (ℚ × GradeInfo × Nat) :=
  let data := all_data results
  if data.isEmpty then none
  else
    let overall := listMean (data.map Item.compound)
    some (overall, get_sentiment_grade overall, data.length)

/-- The success-marker test of the status badge rendering in app.py:
a status counts as a success iff it contains the check-mark marker
(the in-operator test on the status string at the badge section). -/
def isSuccessStatus (status : String) : Bool :=
  strContains status "‚úÖ"

/-- C10: get_sentiment_grade is a total deterministic function: every
score receives exactly one of the six grades, determined solely by the
threshold partition at 0.5, 0.3, 0.1, -0.1, -0.3. -/
theorem get_sentiment_grade_partition (score : ℚ) :
    (get_sentiment_grade score).grade ∈ ["A+", "A", "B", "C", "D", "F"]
    ∧ (0.5 ≤ score → (get_sentiment_grade score).grade = "A+")
    ∧ (0.3 ≤ score ∧ score < 0.5 → (get_sentiment_grade score).grade = "A")
    ∧ (0.1 ≤ score ∧ score < 0.3 → (get_sentiment_grade score).grade = "B")
    ∧ (-0.1 ≤ score ∧ score < 0.1 → (get_sentiment_grade score).grade = "C")
    ∧ (-0.3 ≤ score ∧ score < -0.1 → (get_sentiment_grade score).grade = "D")
    ∧ (score < -0.3 → (get_sentiment_grade score).grade = "F") := by
  refine ⟨?_, ?_, ?_, ?_, ?_, ?_, ?_⟩
  · unfold get_sentiment_grade
    split_ifs <;> simp
  · intro h
    unfold get_sentiment_grade
    rw [if_pos (by linarith)]
  · intro h
    unfold get_sentiment_grade
    rw [if_neg (by push_neg; linarith), if_pos (by linarith)]
  · intro h
    unfold get_sentiment_grade
    rw [if_neg (by push_neg; linarith), if_neg (by push_neg; linarith),
      if_pos (by linarith)]
  · intro h
    unfold get_sentiment_grade
    rw [if_neg (by push_neg; linarith), if_neg (by push_neg; linarith),
      if_neg (by push_neg; linarith), if_pos (by linarith)]
  · intro h
    unfold get_sentiment_grade
    rw [if_neg (by push_neg; linarith), if_neg (by push_neg; linarith),
      if_neg (by push_neg; linarith), if_neg (by push_neg; linarith),
      if_pos (by linarith)]
  · intro h
    unfold get_sentiment_grade
    rw [if_neg (by push_neg; linarith), if_neg (by push_neg; linarith),
      if_neg (by push_neg; linarith), if_neg (by push_neg; linarith),
      if_neg (by push_neg; linarith)]

/-- Witness for the grade partition theorem at the concrete score
0.42, which falls in the A band. -/
theorem get_sentiment_grade_partition_witness :
    ((0.3 : ℚ) ≤ 0.42 ∧ (0.42 : ℚ) < 0.5)
    ∧ (get_sentiment_grade 0.42).grade = "A" :=
  ⟨⟨by norm_num, by norm_num⟩,
    (get_sentiment_grade_partition 0.42).2.2.1 ⟨by norm_num, by norm_num⟩⟩

/-- C7: get_api_key resolves a credential by short-circuiting
priority: the explicit user key when non-empty, then the shared secret
store, then the environment variable, then absent; a failed or missing
store silently falls through to the environment, and the function is
total (never raises). -/
theorem get_api_key_priority (key_name : String) (user_key : Option String)
    (secrets : Option (String → Option String)) (env : String → Option String) :
    (pyTruthy user_key = true →
      get_api_key key_name user_key secrets env = user_key)
    ∧ (pyTruthy user_key = false →
        ∀ store, secrets = some store → ∀ v, store key_name = some v →
          get_api_key key_name user_key secrets env = some v)
    ∧ (pyTruthy user_key = false →
        secrets.bind (fun store => store key_name) = none →
        pyTruthy (env key_name) = true →
        get_api_key key_name user_key secrets env = env key_name)
    ∧ (pyTruthy user_key = false →
        secrets.bind (fun store => store key_name) = none →
        pyTruthy (env key_name) = false →
        get_api_key key_name user_key secrets env = none) := by
  refine ⟨?_, ?_, ?_, ?_⟩
  · intro h
    unfold get_api_key
    rw [h]
    rfl
  · intro h store hs v hv
    unfold get_api_key
    rw [h, hs]
    simp [hv]
  · intro h hs he
    unfold get_api_key
    rw [h]
    cases secrets with
    | none => simp [he]
    | some store =>
      simp only [Option.some_bind] at hs
      simp [hs, he]
  · intro h hs he
    unfold get_api_key
    rw [h]
    cases secrets with
    | none => simp [he]
    | some store =>
      simp only [Option.some_bind] at hs
      simp [hs, he]

/-- Witness for the credential priority theorem: an explicit non-empty
user key wins. -/
theorem get_api_key_priority_witness :
    pyTruthy (some "k") = true
    ∧ get_api_key "NEWSAPI_KEY" (some "k") none (fun _ => none) = some "k" :=
  ⟨by decide,
    (get_api_key_priority "NEWSAPI_KEY" (some "k") none (fun _ => none)).1 (by decide)⟩

/-- C2: every limit-gated adapter called with limit 0 returns exactly
the empty item list with the Disabled sentinel status and performs
zero network calls. -/
theorem limit_zero_disables :
    (∀ analyzer now query responses,
      fetch_ct_nitter analyzer now query 0 responses = (([], "Disabled"), 0))
    ∧ (∀ analyzer now query api_key secrets env world,
      fetch_ct_rapidapi analyzer now query 0 api_key secrets env world
        = (([], "Disabled"), 0))
    ∧ (∀ analyzer fmtTs subs query worlds,
      fetch_reddit_json analyzer fmtTs subs query 0 worlds
        = (([], "Disabled"), 0))
    ∧ (∀ analyzer query days api_key secrets env world,
      fetch_news analyzer query days 0 api_key secrets env world
        = (([], "Disabled"), 0))
    ∧ (∀ analyzer fmtTs query world,
      fetch_cryptocompare_news analyzer fmtTs query 0 world
        = (([], "Disabled"), 0))
    ∧ (∀ analyzer query world1 world2,
      fetch_cryptopanic analyzer query 0 world1 world2
        = (([], "Disabled"), 0))
    ∧ (∀ analyzer now query world,
      fetch_coinmarketcap_news analyzer now query 0 world
        = (([], "Disabled"), 0)) :=
  ⟨fun _ _ _ _ => rfl, fun _ _ _ _ _ _ _ => rfl, fun _ _ _ _ _ => rfl,
    fun _ _ _ _ _ _ _ => rfl, fun _ _ _ _ => rfl, fun _ _ _ _ => rfl,
    fun _ _ _ _ => rfl⟩

/-- Helper for the safe_request theorem: the proxy loop yields nothing
when no sampled proxy answers with status 200. -/
theorem proxyLoop_eq_none_of_no200 (viaProxy : String → RequestOutcome)
    (sample : List String)
    (hfail : ∀ p ∈ sample, ∀ r, viaProxy p = .resp r → r.status_code ≠ 200) :
    proxyLoop viaProxy sample = none := by
  induction sample with
  | nil => rfl
  | cons p ps ih =>
    have hrest := ih (fun q hq => hfail q (List.mem_cons_of_mem _ hq))
    cases hv : viaProxy p with
    | exc => simp [proxyLoop, hv, hrest]
    | resp r =>
      have hnr : r.status_code ≠ 200 := hfail p (List.mem_cons_self _ _) r hv
      simp [proxyLoop, hv, hnr, hrest]

/-- Helper for the safe_request theorem: the proxy loop returns the
response of the first sampled proxy that answers with status 200. -/
theorem proxyLoop_first_success (viaProxy : String → RequestOutcome)
    (pre post : List String) (p : String) (r : HttpResponse)
    (hpre : ∀ q ∈ pre, ∀ s, viaProxy q = .resp s → s.status_code ≠ 200)
    (hp : viaProxy p = .resp r) (h200 : r.status_code = 200) :
    proxyLoop viaProxy (pre ++ p :: post) = some r := by
  induction pre with
  | nil => simp [proxyLoop, hp, h200]
  | cons q qs ih =>
    have hrest := ih (fun x hx => hpre x (List.mem_cons_of_mem _ hx))
    cases hv : viaProxy q with
    | exc => simpa [proxyLoop, hv] using hrest
    | resp s =>
      have hns : s.status_code ≠ 200 := hpre q (List.mem_cons_self _ _) s hv
      simpa [proxyLoop, hv, hns] using hrest

/-- Helper for the safe_request theorem: the proxy loop only ever
returns responses with status 200. -/
theorem proxyLoop_only_200 (viaProxy : String → RequestOutcome)
    (sample : List String) (r : HttpResponse)
    (h : proxyLoop viaProxy sample = some r) : r.status_code = 200 := by
  induction sample with
  | nil => exact absurd h (by simp [proxyLoop])
  | cons p ps ih =>
    cases hv : viaProxy p with
    | exc =>
      simp only [proxyLoop, hv] at h
      exact ih h
    | resp s =>
      simp only [proxyLoop, hv] at h
      by_cases hs : s.status_code = 200
      · rw [if_pos hs] at h
        cases h
        exact hs
      · rw [if_neg hs] at h
        exact ih h

/-- C3: safe_request attempts the direct request first and returns a
direct 200 response immediately; on a direct failure (exception or
non-200) with a truthy proxy pool it walks the sampled proxies (at
most three, distinct, drawn from the pool) in order and returns the
first 200 response among them; without a pool, or when every attempt
fails, it returns none; it only ever returns 200 responses, and being
a total function it never raises. The sample-shape hypotheses record
what random.sample guarantees. -/
theorem safe_request_spec (direct : RequestOutcome)
    (viaProxy : String → RequestOutcome)
    (proxies_list : Option (List String)) (sample : List String)
    (hlen : sample.length = min 3 (proxyPoolSize proxies_list))
    (hdistinct : sample.Nodup)
    (hmem : ∀ p ∈ sample, ∀ ps, proxies_list = some ps → p ∈ ps) :
    (∀ r, direct = .resp r → r.status_code = 200 →
      safe_request direct viaProxy proxies_list sample = some r)
    ∧ sample.length ≤ 3
    ∧ (∀ r, safe_request direct viaProxy proxies_list sample = some r →
        r.status_code = 200)
    ∧ (directResult direct = none →
        (proxies_list = none ∨ proxies_list = some []) →
        safe_request direct viaProxy proxies_list sample = none)
    ∧ (directResult direct = none → ∀ ps, proxies_list = some ps → ps ≠ [] →
        safe_request direct viaProxy proxies_list sample = proxyLoop viaProxy sample)
    ∧ (directResult direct = none →
        (∀ p ∈ sample, ∀ r, viaProxy p = .resp r → r.status_code ≠ 200) →
        safe_request direct viaProxy proxies_list sample = none)
    ∧ (directResult direct = none → ∀ ps, proxies_list = some ps → ps ≠ [] →
        ∀ pre p post r, sample = pre ++ p :: post →
          (∀ q ∈ pre, ∀ s, viaProxy q = .resp s → s.status_code ≠ 200) →
          viaProxy p = .resp r → r.status_code = 200 →
          safe_request direct viaProxy proxies_list sample = some r) := by
  refine ⟨?_, ?_, ?_, ?_, ?_, ?_, ?_⟩
  · intro r hdirect h200
    subst hdirect
    simp [safe_request, directResult, h200]
  · rw [hlen]
    exact Nat.min_le_left _ _
  · intro r h
    unfold safe_request at h
    cases hd : directResult direct with
    | some s =>
      simp only [hd] at h
      cases h
      cases direct with
      | exc => exact absurd hd (by simp [directResult])
      | resp t =>
        simp only [directResult] at hd
        by_cases ht : t.status_code = 200
        · rw [if_pos ht] at hd
          cases hd
          exact ht
        · rw [if_neg ht] at hd
          cases hd
    | none =>
      simp only [hd] at h
      cases proxies_list with
      | none => cases h
      | some ps =>
        by_cases hps : ps.isEmpty = true
        · simp only [hps, if_true] at h
          cases h
        · simp only [hps, if_false] at h
          exact proxyLoop_only_200 viaProxy sample r h
  · intro hd hpool
    rcases hpool with h | h <;> subst h <;> simp [safe_request, hd]
  · intro hd ps hps hne
    subst hps
    have hps' : ps.isEmpty = false := by
      cases ps with
      | nil => exact absurd rfl hne
      | cons a as => rfl
    simp [safe_request, hd, hps']
  · intro hd hfail
    have hnone := proxyLoop_eq_none_of_no200 viaProxy sample hfail
    cases proxies_list with
    | none => simp [safe_request, hd]
    | some ps =>
      by_cases hps : ps.isEmpty = true
      · simp [safe_request, hd, hps]
      · simp only [Bool.not_eq_true] at hps
        simp [safe_request, hd, hps, hnone]
  · intro hd ps hpool hne pre p post r hsamp hpre hp h200
    subst hpool
    subst hsamp
    have hps' : ps.isEmpty = false := by
      cases ps with
      | nil => exact absurd rfl hne
      | cons a as => rfl
    have hloop := proxyLoop_first_success viaProxy pre post p r hpre hp h200
    simp [safe_request, hd, hps', hloop]

/-- Witness for the safe_request theorem: a direct 200 response with
an empty pool, where the sample-shape hypotheses hold trivially. -/
theorem safe_request_spec_witness :
    (([] : List String).length = min 3 (proxyPoolSize none)
      ∧ ([] : List String).Nodup)
    ∧ safe_request (.resp ⟨200⟩) (fun _ => .exc) none [] = some ⟨200⟩ :=
  ⟨⟨by decide, by decide⟩,
    (safe_request_spec (.resp ⟨200⟩) (fun _ => .exc) none []
      (by decide) (by decide) (by intro p hp; cases hp)).1 ⟨200⟩ rfl rfl⟩

/-- Helper: when the user key is falsy, the store has no entry for the
name, and the environment variable is falsy, get_api_key resolves to
none. -/
theorem get_api_key_none_of_missing (key_name : String) (user_key : Option String)
    (secrets : Option (String → Option String)) (env : String → Option String)
    (hu : pyTruthy user_key = false)
    (hs : secrets.bind (fun store => store key_name) = none)
    (he : pyTruthy (env key_name) = false) :
    get_api_key key_name user_key secrets env = none := by
  unfold get_api_key
  rw [hu]
  cases secrets with
  | none => simp [he]
  | some store =>
    simp only [Option.some_bind] at hs
    simp [hs, he]

/-- C6: a keyed adapter (RapidAPI Twitter, NewsAPI) invoked with a
positive limit but no resolvable credential (falsy user key, no
secret-store entry, falsy environment variable) performs zero network
calls and returns empty items with the missing-credentials status,
which differs from the Disabled sentinel and does not carry the
success marker. -/
theorem missing_key_short_circuits
    (analyzer : String → ℚ) (now query : String) (limit days : Nat)
    (api_key : Option String) (secrets : Option (String → Option String))
    (env : String → Option String) (worldR : HttpOutcome RapidResp)
    (worldN : HttpOutcome NewsResp)
    (hlim : limit ≠ 0)
    (hu : pyTruthy api_key = false)
    (hs1 : secrets.bind (fun store => store "RAPIDAPI_KEY") = none)
    (hs2 : secrets.bind (fun store => store "NEWSAPI_KEY") = none)
    (he1 : pyTruthy (env "RAPIDAPI_KEY") = false)
    (he2 : pyTruthy (env "NEWSAPI_KEY") = false) :
    fetch_ct_rapidapi analyzer now query limit api_key secrets env worldR
      = (([], "‚ö†Ô∏è No API key"), 0)
    ∧ fetch_news analyzer query days limit api_key secrets env worldN
      = (([], "‚ö†Ô∏è No API key"), 0)
    ∧ "‚ö†Ô∏è No API key" ≠ "Disabled"
    ∧ isSuccessStatus "‚ö†Ô∏è No API key" = false := by
  have hkeyR := get_api_key_none_of_missing "RAPIDAPI_KEY" api_key secrets env hu hs1 he1
  have hkeyN := get_api_key_none_of_missing "NEWSAPI_KEY" api_key secrets env hu hs2 he2
  refine ⟨?_, ?_, by decide, by decide⟩
  · simp [fetch_ct_rapidapi, hlim, hkeyR, pyTruthy]
  · simp [fetch_news, hlim, hkeyN, pyTruthy]

/-- Witness for the missing-credentials theorem: limit 1 with no user
key, no secret store and an empty environment. -/
theorem missing_key_short_circuits_witness :
    ((1 : Nat) ≠ 0 ∧ pyTruthy none = false)
    ∧ fetch_ct_rapidapi (fun _ => 0) "" "q" 1 none none (fun _ => none) (.exc "")
      = (([], "‚ö†Ô∏è No API key"), 0) :=
  ⟨⟨by decide, rfl⟩,
    (missing_key_short_circuits (fun _ => 0) "" "q" 1 0 none none (fun _ => none)
      (.exc "") (.exc "") (by decide) rfl rfl rfl rfl rfl).1⟩

/-- Helper: a property closed under the accumulator and the appended
element holds of everything in the extended accumulator. -/
theorem mem_append_singleton_prop {P : Item → Prop} {acc : List Item} {it : Item}
    (hacc : ∀ i ∈ acc, P i) (hit : P it) : ∀ i ∈ acc ++ [it], P i := by
  intro i hi
  rcases List.mem_append.mp hi with h | h
  · exact hacc i h
  · rw [List.mem_singleton.mp h]
    exact hit

/-- Label consistency through the Nitter tweet loop. -/
theorem nitterCollect_label (analyzer : String → ℚ) (now : String) (limit : Nat)
    (ts : List NitterTweet) (acc : List Item)
    (hacc : ∀ i ∈ acc, i.label = vader_label i.compound) :
    ∀ i ∈ nitterCollect analyzer now limit ts acc,
      i.label = vader_label i.compound := by
  induction ts generalizing acc with
  | nil => simpa [nitterCollect] using hacc
  | cons t ts ih =>
    cases hdesc : t.description with
    | none =>
      simp only [nitterCollect, hdesc]
      split
      · exact hacc
      · exact ih acc hacc
    | some raw =>
      simp only [nitterCollect, hdesc]
      split
      · exact mem_append_singleton_prop hacc rfl
      · exact ih _ (mem_append_singleton_prop hacc rfl)

/-- Label consistency through the Nitter instance loop. -/
theorem nitterGo_label (analyzer : String → ℚ) (now : String) (limit : Nat)
    (responses : List (Option (List NitterTweet))) (calls : Nat) :
    ∀ i ∈ (nitterGo analyzer now limit responses calls).1.1,
      i.label = vader_label i.compound := by
  induction responses generalizing calls with
  | nil => simp [nitterGo]
  | cons resp rest ih =>
    cases resp with
    | none =>
      simp only [nitterGo]
      exact ih _
    | some tweets =>
      simp only [nitterGo]
      split
      · exact ih _
      · exact nitterCollect_label analyzer now limit (tweets.take limit) []
          (by simp)

/-- Label consistency through the Reddit post loop. -/
theorem redditCollect_label (analyzer : String → ℚ) (fmtTs : Int → String)
    (query : String) (limit : Nat) (posts : List RedditPost) (acc : List Item)
    (hacc : ∀ i ∈ acc, i.label = vader_label i.compound) :
    ∀ i ∈ redditCollect analyzer fmtTs query limit posts acc,
      i.label = vader_label i.compound := by
  induction posts generalizing acc with
  | nil => simpa [redditCollect] using hacc
  | cons p ps ih =>
    simp only [redditCollect]
    split
    · exact ih acc hacc
    · split
      · exact mem_append_singleton_prop hacc rfl
      · exact ih _ (mem_append_singleton_prop hacc rfl)

/-- Label consistency through the subreddit loop. -/
theorem redditGo_label (analyzer : String → ℚ) (fmtTs : Int → String)
    (query : String) (limit : Nat) (worlds : String → SubWorld)
    (subs : List String) (acc : List Item) (errs calls : Nat)
    (hacc : ∀ i ∈ acc, i.label = vader_label i.compound) :
    ∀ i ∈ (redditGo analyzer fmtTs query limit worlds subs acc errs calls).1,
      i.label = vader_label i.compound := by
  induction subs generalizing acc errs calls with
  | nil => simpa [redditGo] using hacc
  | cons sub rest ih =>
    cases hsw : (worlds sub).search with
    | none =>
      simp only [redditGo, hsw]
      exact ih _ _ _ hacc
    | some o =>
      cases o with
      | none =>
        simp only [redditGo, hsw]
        exact ih _ _ _ hacc
      | some posts =>
        simp only [redditGo, hsw]
        exact ih _ _ _
          (redditCollect_label analyzer fmtTs query limit _ acc hacc)

/-- Label consistency of the Nitter adapter. -/
theorem fetch_ct_nitter_label (analyzer : String → ℚ) (now query : String)
    (limit : Nat) (responses : List (Option (List NitterTweet))) :
    ∀ i ∈ (fetch_ct_nitter analyzer now query limit responses).1.1,
      i.label = vader_label i.compound := by
  unfold fetch_ct_nitter
  split
  · simp
  · exact nitterGo_label analyzer now limit responses 0

/-- Helper: items built by a map whose function always writes the
label as vader_label of the written score are label-consistent. -/
theorem mem_map_label {α : Type} (f : α → Item)
    (hf : ∀ a, (f a).label = vader_label ((f a).compound)) (l : List α) :
    ∀ i ∈ l.map f, i.label = vader_label i.compound := by
  intro i hi
  obtain ⟨a, _, rfl⟩ := List.mem_map.mp hi
  exact hf a

/-- Helper: items built by a filterMap whose function only emits
label-consistent items are label-consistent. -/
theorem mem_filterMap_label {α : Type} (f : α → Option Item)
    (hf : ∀ a i, f a = some i → i.label = vader_label i.compound) (l : List α) :
    ∀ i ∈ l.filterMap f, i.label = vader_label i.compound := by
  intro i hi
  obtain ⟨a, _, he⟩ := List.mem_filterMap.mp hi
  exact hf a i he

/-- Label consistency of the RapidAPI adapter. -/
theorem fetch_ct_rapidapi_label (analyzer : String → ℚ) (now query : String)
    (limit : Nat) (api_key : Option String)
    (secrets : Option (String → Option String)) (env : String → Option String)
    (world : HttpOutcome RapidResp) :
    ∀ i ∈ (fetch_ct_rapidapi analyzer now query limit api_key secrets env world).1.1,
      i.label = vader_label i.compound := by
  unfold fetch_ct_rapidapi
  dsimp only
  split
  · simp
  · split
    · simp
    · split
      · simp
      · split
        · simp
        · split
          · simp
          · dsimp only
            exact mem_map_label _ (fun t => rfl) _

/-- Label consistency of the Reddit adapter. -/
theorem fetch_reddit_json_label (analyzer : String → ℚ) (fmtTs : Int → String)
    (subs : List String) (query : String) (limit : Nat)
    (worlds : String → SubWorld) :
    ∀ i ∈ (fetch_reddit_json analyzer fmtTs subs query limit worlds).1.1,
      i.label = vader_label i.compound := by
  unfold fetch_reddit_json
  dsimp only
  split
  · simp
  · exact redditGo_label analyzer fmtTs query limit worlds subs [] 0 0 (by simp)

/-- Label consistency of the NewsAPI adapter. -/
theorem fetch_news_label (analyzer : String → ℚ) (query : String)
    (days limit : Nat) (api_key : Option String)
    (secrets : Option (String → Option String)) (env : String → Option String)
    (world : HttpOutcome NewsResp) :
    ∀ i ∈ (fetch_news analyzer query days limit api_key secrets env world).1.1,
      i.label = vader_label i.compound := by
  unfold fetch_news
  dsimp only
  split
  · simp
  · split
    · simp
    · split
      · simp
      · split
        · simp
        · split
          · simp
          · dsimp only
            exact mem_map_label _ (fun a => rfl) _

/-- Label consistency of the CoinGecko trending adapter. -/
theorem fetch_coingecko_trending_label (now : String)
    (world : HttpOutcome TrendingResp) :
    ∀ i ∈ (fetch_coingecko_trending now world).1.1,
      i.label = vader_label i.compound := by
  unfold fetch_coingecko_trending
  dsimp only
  split
  · simp
  · split
    · simp
    · dsimp only
      exact mem_map_label _ (fun coin => rfl) _

/-- Label consistency of the CryptoCompare adapter. -/
theorem fetch_cryptocompare_news_label (analyzer : String → ℚ)
    (fmtTs : Int → String) (query : String) (limit : Nat)
    (world : HttpOutcome CCResp) :
    ∀ i ∈ (fetch_cryptocompare_news analyzer fmtTs query limit world).1.1,
      i.label = vader_label i.compound := by
  unfold fetch_cryptocompare_news
  dsimp only
  split
  · simp
  · split
    · simp
    · split
      · simp
      · dsimp only
        exact mem_map_label _ (fun article => rfl) _

/-- Label consistency of the shared CryptoPanic tail. -/
theorem cryptopanicFinish_label (analyzer : String → ℚ) (query : String)
    (limit : Nat) (results : List CPPost) (hasCurrencies : Bool) (calls : Nat) :
    ∀ i ∈ (cryptopanicFinish analyzer query limit results hasCurrencies calls).1.1,
      i.label = vader_label i.compound := by
  unfold cryptopanicFinish
  dsimp only
  split
  · split
    · simp
    · dsimp only
      exact mem_map_label _ (fun article => rfl) _
  · split
    · simp
    · dsimp only
      exact mem_map_label _ (fun article => rfl) _

/-- Label consistency of the CryptoPanic adapter. -/
theorem fetch_cryptopanic_label (analyzer : String → ℚ) (query : String)
    (limit : Nat) (world1 world2 : HttpOutcome CPResp) :
    ∀ i ∈ (fetch_cryptopanic analyzer query limit world1 world2).1.1,
      i.label = vader_label i.compound := by
  unfold fetch_cryptopanic
  dsimp only
  split
  · simp
  · split
    · simp
    · split
      · split
        · simp
        · split
          · simp
          · exact cryptopanicFinish_label analyzer query limit _ false 2
      · exact cryptopanicFinish_label analyzer query limit _ _ 1

/-- Label consistency of the CoinMarketCap adapter. -/
theorem fetch_coinmarketcap_news_label (analyzer : String → ℚ)
    (now query : String) (limit : Nat) (world : HttpOutcome CMCResp) :
    ∀ i ∈ (fetch_coinmarketcap_news analyzer now query limit world).1.1,
      i.label = vader_label i.compound := by
  unfold fetch_coinmarketcap_news
  dsimp only
  split
  · simp
  · split
    · simp
    · split
      · simp
      · split
        · simp
        · dsimp only
          refine mem_filterMap_label _ (fun h i he => ?_) _
          split at he
          · cases he
          · split at he
            · cases he
            · cases he
              rfl

/-- C4: every SentimentItem produced by any adapter stores a label
that is exactly vader_label of its stored score; no adapter ever
stores an inconsistent label. -/
theorem label_consistent_all_adapters :
    (∀ (analyzer : String → ℚ) (now query : String) (limit : Nat) responses,
      ∀ i ∈ (fetch_ct_nitter analyzer now query limit responses).1.1,
        i.label = vader_label i.compound)
    ∧ (∀ (analyzer : String → ℚ) (now query : String) (limit : Nat)
        api_key secrets env world,
      ∀ i ∈ (fetch_ct_rapidapi analyzer now query limit api_key secrets env world).1.1,
        i.label = vader_label i.compound)
    ∧ (∀ (analyzer : String → ℚ) fmtTs subs (query : String) (limit : Nat) worlds,
      ∀ i ∈ (fetch_reddit_json analyzer fmtTs subs query limit worlds).1.1,
        i.label = vader_label i.compound)
    ∧ (∀ (analyzer : String → ℚ) (query : String) (days limit : Nat)
        api_key secrets env world,
      ∀ i ∈ (fetch_news analyzer query days limit api_key secrets env world).1.1,
        i.label = vader_label i.compound)
    ∧ (∀ (now : String) world,
      ∀ i ∈ (fetch_coingecko_trending now world).1.1,
        i.label = vader_label i.compound)
    ∧ (∀ (analyzer : String → ℚ) fmtTs (query : String) (limit : Nat) world,
      ∀ i ∈ (fetch_cryptocompare_news analyzer fmtTs query limit world).1.1,
        i.label = vader_label i.compound)
    ∧ (∀ (analyzer : String → ℚ) (query : String) (limit : Nat) world1 world2,
      ∀ i ∈ (fetch_cryptopanic analyzer query limit world1 world2).1.1,
        i.label = vader_label i.compound)
    ∧ (∀ (analyzer : String → ℚ) (now query : String) (limit : Nat) world,
      ∀ i ∈ (fetch_coinmarketcap_news analyzer now query limit world).1.1,
        i.label = vader_label i.compound) :=
  ⟨fetch_ct_nitter_label, fetch_ct_rapidapi_label, fetch_reddit_json_label,
    fetch_news_label, fetch_coingecko_trending_label,
    fetch_cryptocompare_news_label, fetch_cryptopanic_label,
    fetch_coinmarketcap_news_label⟩

/-- Witness for the label-consistency theorem: a concrete trending
run producing one item whose label matches its score. -/
theorem label_consistent_all_adapters_witness :
    (⟨"coingecko_trending",
        "Trending: " ++ "Bitcoin" ++ " (" ++ "BTC" ++ ") - Rank #" ++ "1",
        "Trending: " ++ "Bitcoin" ++ " (" ++ "BTC" ++ ") - Rank #" ++ "1",
        "https://www.coingecko.com/en/coins/" ++ "bitcoin", "now", 0.3,
        vader_label 0.3⟩ : Item)
      ∈ (fetch_coingecko_trending "now"
          (.ok ⟨200, [⟨"Bitcoin", "BTC", "1", "bitcoin"⟩]⟩)).1.1
    ∧ (⟨"coingecko_trending",
        "Trending: " ++ "Bitcoin" ++ " (" ++ "BTC" ++ ") - Rank #" ++ "1",
        "Trending: " ++ "Bitcoin" ++ " (" ++ "BTC" ++ ") - Rank #" ++ "1",
        "https://www.coingecko.com/en/coins/" ++ "bitcoin", "now", 0.3,
        vader_label 0.3⟩ : Item).label
      = vader_label (⟨"coingecko_trending",
        "Trending: " ++ "Bitcoin" ++ " (" ++ "BTC" ++ ") - Rank #" ++ "1",
        "Trending: " ++ "Bitcoin" ++ " (" ++ "BTC" ++ ") - Rank #" ++ "1",
        "https://www.coingecko.com/en/coins/" ++ "bitcoin", "now", 0.3,
        vader_label 0.3⟩ : Item).compound := by
  have hmem : (⟨"coingecko_trending",
      "Trending: " ++ "Bitcoin" ++ " (" ++ "BTC" ++ ") - Rank #" ++ "1",
      "Trending: " ++ "Bitcoin" ++ " (" ++ "BTC" ++ ") - Rank #" ++ "1",
      "https://www.coingecko.com/en/coins/" ++ "bitcoin", "now", 0.3,
      vader_label 0.3⟩ : Item)
      ∈ (fetch_coingecko_trending "now"
          (.ok ⟨200, [⟨"Bitcoin", "BTC", "1", "bitcoin"⟩]⟩)).1.1 :=
    List.mem_singleton_self _
  exact ⟨hmem,
    label_consistent_all_adapters.2.2.2.2.1 "now"
      (.ok ⟨200, [⟨"Bitcoin", "BTC", "1", "bitcoin"⟩]⟩) _ hmem⟩

/-- Helper: truncating a string to its first n characters leaves at
most n characters. -/
theorem string_take_length_le (s : String) (n : Nat) : (s.take n).length ≤ n := by
  have h : (s.take n).data = s.data.take n := String.data_take s n
  rw [String.length, h, List.length_take]
  exact Nat.min_le_left _ _

/-- Title shape through the Nitter tweet loop: every item stores the
first 80 characters of its text as title. -/
theorem nitterCollect_title (analyzer : String → ℚ) (now : String) (limit : Nat)
    (ts : List NitterTweet) (acc : List Item)
    (hacc : ∀ i ∈ acc, i.title = i.text.take 80) :
    ∀ i ∈ nitterCollect analyzer now limit ts acc, i.title = i.text.take 80 := by
  induction ts generalizing acc with
  | nil => simpa [nitterCollect] using hacc
  | cons t ts ih =>
    cases hdesc : t.description with
    | none =>
      simp only [nitterCollect, hdesc]
      split
      · exact hacc
      · exact ih acc hacc
    | some raw =>
      simp only [nitterCollect, hdesc]
      split
      · exact mem_append_singleton_prop hacc (by dsimp only)
      · exact ih _ (mem_append_singleton_prop hacc (by dsimp only))

/-- Title shape through the Nitter instance loop. -/
theorem nitterGo_title (analyzer : String → ℚ) (now : String) (limit : Nat)
    (responses : List (Option (List NitterTweet))) (calls : Nat) :
    ∀ i ∈ (nitterGo analyzer now limit responses calls).1.1,
      i.title = i.text.take 80 := by
  induction responses generalizing calls with
  | nil => simp [nitterGo]
  | cons resp rest ih =>
    cases resp with
    | none =>
      simp only [nitterGo]
      exact ih _
    | some tweets =>
      simp only [nitterGo]
      split
      · exact ih _
      · exact nitterCollect_title analyzer now limit (tweets.take limit) []
          (by simp)

/-- C9 counterexample: the Reddit adapter stores the provider title
untruncated, so a post whose title has 81 characters yields an item
whose title exceeds 80 characters, refuting the claim that every
adapter truncates titles to at most 80 characters. -/
theorem reddit_title_not_truncated :
    ¬ ∀ i ∈ (fetch_reddit_json (fun _ => 0) (fun _ => "") ["bitcoin"] "a" 60
        (fun _ => ⟨some (some
          [⟨"aaaaaaaaaaaaaaaaaaaaaaaaaaaaaaaaaaaaaaaaaaaaaaaaaaaaaaaaaaaaaaaaaaaaaaaaaaaaaaaaa",
            "", "", 0⟩]), none⟩)).1.1,
      i.title.length ≤ 80 := by decide

/-- C9 amended: only the two Twitter adapters truncate: their items
store the first 80 characters of the item text as the title (hence at
most 80 characters); the remaining adapters store the provider title
unmodified, which can exceed 80 characters (see the counterexample). -/
theorem twitter_titles_truncated :
    (∀ (analyzer : String → ℚ) (now query : String) (limit : Nat) responses,
      ∀ i ∈ (fetch_ct_nitter analyzer now query limit responses).1.1,
        i.title = i.text.take 80 ∧ i.title.length ≤ 80)
    ∧ (∀ (analyzer : String → ℚ) (now query : String) (limit : Nat)
        api_key secrets env world,
      ∀ i ∈ (fetch_ct_rapidapi analyzer now query limit api_key secrets env world).1.1,
        i.title = i.text.take 80 ∧ i.title.length ≤ 80) := by
  constructor
  · intro analyzer now query limit responses i hi
    have ht : i.title = i.text.take 80 := by
      revert i hi
      unfold fetch_ct_nitter
      split
      · simp
      · exact nitterGo_title analyzer now limit responses 0
    exact ⟨ht, ht ▸ string_take_length_le i.text 80⟩
  · intro analyzer now query limit api_key secrets env world i hi
    have ht : i.title = i.text.take 80 := by
      revert i hi
      unfold fetch_ct_rapidapi
      dsimp only
      split
      · simp
      · split
        · simp
        · split
          · simp
          · split
            · simp
            · split
              · simp
              · dsimp only
                intro i hi
                obtain ⟨t, _, rfl⟩ := List.mem_map.mp hi
                dsimp only
    exact ⟨ht, ht ▸ string_take_length_le i.text 80⟩

/-- Witness for the amended truncation theorem: a concrete Nitter run
producing one item. -/
theorem twitter_titles_truncated_witness :
    (⟨"ct_nitter", (pyStrip (stripTags "hi")).take 80, pyStrip (stripTags "hi"),
        "u", "n", 0, vader_label 0⟩ : Item)
      ∈ (fetch_ct_nitter (fun _ => 0) "n" "q" 5
          [some [⟨some "hi", some "u"⟩]]).1.1
    ∧ (⟨"ct_nitter", (pyStrip (stripTags "hi")).take 80, pyStrip (stripTags "hi"),
        "u", "n", 0, vader_label 0⟩ : Item).title
      = (⟨"ct_nitter", (pyStrip (stripTags "hi")).take 80, pyStrip (stripTags "hi"),
        "u", "n", 0, vader_label 0⟩ : Item).text.take 80 := by
  have hmem : (⟨"ct_nitter", (pyStrip (stripTags "hi")).take 80,
      pyStrip (stripTags "hi"), "u", "n", 0, vader_label 0⟩ : Item)
      ∈ (fetch_ct_nitter (fun _ => 0) "n" "q" 5
          [some [⟨some "hi", some "u"⟩]]).1.1 :=
    List.mem_singleton_self _
  exact ⟨hmem,
    (twitter_titles_truncated.1 (fun _ => 0) "n" "q" 5
      [some [⟨some "hi", some "u"⟩]] _ hmem).1⟩

/-- Helper: projecting the keys out of a keyed tabulation returns the
key list. -/
theorem map_fst_map_pair {α β : Type} (f : α → β) (l : List α) :
    (l.map (fun a => (a, f a))).map Prod.fst = l := by
  induction l with
  | nil => rfl
  | cons x xs ih => simp [ih]

/-- Helper: a conditional singleton is a sublist of the singleton. -/
theorem ite_singleton_sublist {c : Prop} [Decidable c] (a : String) :
    List.Sublist (if c then [a] else []) [a] := by
  split
  · exact List.Sublist.refl _
  · exact List.nil_sublist _

/-- Helper: the submitted task names are a sublist of the full ordered
name list, hence duplicate-free. -/
theorem submitted_tasks_nodup (c : Config)
    (secrets : Option (String → Option String)) (env : String → Option String) :
    (submitted_tasks c secrets env).Nodup := by
  have hsub : List.Sublist (submitted_tasks c secrets env)
      (["ct_nitter"] ++ ["ct_rapidapi"] ++ ["reddit"] ++ ["news"] ++
        ["cryptopanic"] ++ ["cryptocompare"] ++ ["cmc"] ++ ["trending"] ++
        ["coingecko", "fear_greed"]) := by
    unfold submitted_tasks
    refine List.Sublist.append (List.Sublist.append (List.Sublist.append
      (List.Sublist.append (List.Sublist.append (List.Sublist.append
      (List.Sublist.append (List.Sublist.append ?_ ?_) ?_) ?_) ?_) ?_) ?_) ?_)
      (List.Sublist.refl _)
    all_goals exact ite_singleton_sublist _
  exact List.Nodup.sublist hsub (by decide)

/-- C1: the orchestrator is total (no exception escapes the fan-in
loop): for every config and every behaviour of the task futures the
returned map has exactly one entry per submitted task, in submission
order and without duplicate keys; a task that raises or exceeds the
collection bound is recorded as empty items plus the timeout/error
status; and the price-lookup and fear/greed-index tasks are submitted
unconditionally. -/
theorem fetch_all_parallel_spec (c : Config)
    (secrets : Option (String → Option String)) (env : String → Option String)
    (outcome : String → TaskOutcome) :
    (fetch_all_parallel c secrets env outcome).map Prod.fst
      = submitted_tasks c secrets env
    ∧ (submitted_tasks c secrets env).Nodup
    ∧ (∀ name v, outcome name = .failed →
        (name, v) ∈ fetch_all_parallel c secrets env outcome →
        v = .items [] "‚ùå Timeout/Error")
    ∧ "coingecko" ∈ submitted_tasks c secrets env
    ∧ "fear_greed" ∈ submitted_tasks c secrets env := by
  refine ⟨?_, submitted_tasks_nodup c secrets env, ?_, ?_, ?_⟩
  · exact map_fst_map_pair _ _
  · intro name v hfail hmem
    simp only [fetch_all_parallel, List.mem_map] at hmem
    obtain ⟨n, hn, heq⟩ := hmem
    simp only [Prod.mk.injEq] at heq
    obtain ⟨rfl, hv⟩ := heq
    rw [hfail] at hv
    exact hv.symm
  · simp [submitted_tasks]
  · simp [submitted_tasks]

/-- Witness for the orchestrator theorem: a config with every source
disabled and every future failing still yields the price-lookup entry,
recorded with the timeout/error value. -/
theorem fetch_all_parallel_spec_witness :
    ((fun _ => TaskOutcome.failed) "coingecko" = TaskOutcome.failed)
    ∧ ("coingecko", TaskValue.items [] "‚ùå Timeout/Error")
      ∈ fetch_all_parallel
          ⟨"BTC", 7, "Nitter (Free)", 0, 0, 0, 0, 0, 0, false, [], none, none, none⟩
          none (fun _ => none) (fun _ => TaskOutcome.failed)
    ∧ TaskValue.items [] "‚ùå Timeout/Error"
      = TaskValue.items [] "‚ùå Timeout/Error" := by
  have hmem : ("coingecko", TaskValue.items [] "‚ùå Timeout/Error")
      ∈ fetch_all_parallel
        ⟨"BTC", 7, "Nitter (Free)", 0, 0, 0, 0, 0, 0, false, [], none, none, none⟩
        none (fun _ => none) (fun _ => TaskOutcome.failed) := by decide
  exact ⟨rfl, hmem,
    (fetch_all_parallel_spec
      ⟨"BTC", 7, "Nitter (Free)", 0, 0, 0, 0, 0, 0, false, [], none, none, none⟩
      none (fun _ => none) (fun _ => TaskOutcome.failed)).2.2.1
      "coingecko" (TaskValue.items [] "‚ùå Timeout/Error") rfl hmem⟩

/-- Helper: folding list concatenation over sources that all
contribute nothing returns the accumulator. -/
theorem foldl_append_nil (f : String → List Item) (l : List String)
    (h : ∀ n ∈ l, f n = []) (acc : List Item) :
    l.foldl (fun a n => a ++ f n) acc = acc := by
  induction l generalizing acc with
  | nil => rfl
  | cons x xs ih =>
    simp only [List.foldl_cons]
    rw [h x (List.mem_cons_self _ _), List.append_nil]
    exact ih (fun n hn => h n (List.mem_cons_of_mem _ hn)) acc

/-- C5: when every sentiment-bearing source contributes zero items,
both the dashboard aggregation and the posting-bot aggregation report
the run as a failure (the user-facing no-data path), and both are
total functions, so the process does not crash; when the concatenated
item list is non-empty, the summary of each is computed from exactly
the concatenated contributing items. -/
theorem aggregate_empty_and_nonempty (results : List (String × TaskValue)) :
    ((∀ n ∈ sentiment_sources, extract_items results n = []) →
      aggregate_display results = none
      ∧ analyze_coin_with_cryptovibes results = none)
    ∧ (all_data results ≠ [] →
      aggregate_display results = some (computeAgg (all_data results))
      ∧ analyze_coin_with_cryptovibes results
        = some (listMean ((all_data results).map Item.compound),
            get_sentiment_grade (listMean ((all_data results).map Item.compound)),
            (all_data results).length)) := by
  constructor
  · intro h
    have hnil : all_data results = [] :=
      foldl_append_nil (extract_items results) sentiment_sources h []
    constructor
    · simp [aggregate_display, hnil]
    · simp [analyze_coin_with_cryptovibes, hnil]
  · intro h
    have he : (all_data results).isEmpty = false := by
      cases hd : all_data results with
      | nil => exact absurd hd h
      | cons a as => rfl
    constructor
    · simp [aggregate_display, he]
    · simp [analyze_coin_with_cryptovibes, he]

/-- Witness for the aggregation theorem: an empty result map, where
every source trivially contributes nothing, surfaces the failure. -/
theorem aggregate_empty_and_nonempty_witness :
    (∀ n ∈ sentiment_sources, extract_items [] n = [])
    ∧ aggregate_display [] = none := by
  have h : ∀ n ∈ sentiment_sources, extract_items ([] : List (String × TaskValue)) n = [] := by
    decide
  exact ⟨h, ((aggregate_empty_and_nonempty []).1 h).1⟩

/-- Helper: the mean of a list of rationals is invariant under
permutation. -/
theorem listMean_perm {a b : List ℚ} (h : a.Perm b) : listMean a = listMean b := by
  unfold listMean
  rw [h.sum_eq, h.length_eq]

/-- C8: aggregation is order-independent: two permuted item lists
yield identical overall mean score, total, per-label counts and
per-source mean/count table (exactly, over rational arithmetic). -/
theorem aggregate_perm_invariant (l1 l2 : List Item) (h : l1.Perm l2) :
    computeAgg l1 = computeAgg l2 := by
  unfold computeAgg
  have hmean : listMean (l1.map Item.compound) = listMean (l2.map Item.compound) :=
    listMean_perm (h.map Item.compound)
  have hlen := h.length_eq
  have hpos := h.countP_eq (fun i => i.label == "positive")
  have hneg := h.countP_eq (fun i => i.label == "negative")
  have hneu := h.countP_eq (fun i => i.label == "neutral")
  have hsrc : ∀ src : String,
      (let xs := l1.filter (fun i => i.source == src);
        if xs.isEmpty then none
        else some (round4 (listMean (xs.map Item.compound)), xs.length))
      = (let xs := l2.filter (fun i => i.source == src);
        if xs.isEmpty then none
        else some (round4 (listMean (xs.map Item.compound)), xs.length)) := by
    intro src
    have hf := h.filter (fun i => i.source == src)
    by_cases he : (l1.filter (fun i => i.source == src)).isEmpty = true
    · have h1 : l1.filter (fun i => i.source == src) = [] :=
        List.isEmpty_iff.mp he
      have h2 : l2.filter (fun i => i.source == src) = [] := by
        rw [h1] at hf
        exact hf.symm.eq_nil
      simp [h1, h2]
    · have h1 : (l1.filter (fun i => i.source == src)).isEmpty = false := by
        simpa using he
      have h2 : (l2.filter (fun i => i.source == src)).isEmpty = false := by
        cases hd : l2.filter (fun i => i.source == src) with
        | nil =>
          rw [hd] at hf
          exact absurd (List.isEmpty_iff.mpr hf.eq_nil) (by simpa using he)
        | cons a as => rfl
      simp only [h1, h2, if_false, Bool.false_eq_true]
      rw [listMean_perm (hf.map Item.compound), hf.length_eq]
  simp only [hmean, hlen, hpos, hneg, hneu]
  congr 1
  funext src
  exact hsrc src

/-- Witness for the permutation-invariance theorem at a concrete
two-element swap. -/
theorem aggregate_perm_invariant_witness :
    ([(⟨"a", "t", "t", "", "", 1, "positive"⟩ : Item),
      ⟨"b", "u", "u", "", "", 0, "neutral"⟩].Perm
      [⟨"b", "u", "u", "", "", 0, "neutral"⟩,
       ⟨"a", "t", "t", "", "", 1, "positive"⟩])
    ∧ computeAgg [⟨"a", "t", "t", "", "", 1, "positive"⟩,
        ⟨"b", "u", "u", "", "", 0, "neutral"⟩]
      = computeAgg [⟨"b", "u", "u", "", "", 0, "neutral"⟩,
        ⟨"a", "t", "t", "", "", 1, "positive"⟩] :=
  ⟨List.Perm.swap _ _ _,
    aggregate_perm_invariant _ _ (List.Perm.swap _ _ _)⟩
